import Mathlib

/-!
Shallow embedding of `src/Cockpit.py` (the "Iterative SAP Mapper" script).

The script loads a tab-separated SAP export, drops rows with a missing
`NAME1` or `ORT01` cell, builds a `Full_Address` string per row
(lines 43-48), left-joins against a CSV cache keyed by `Full_Address`
(line 86), geocodes the pending rows in batches of 10 (lines 104-119),
and after every batch merges the successes into the cache with
`pd.concat(...).drop_duplicates('Full_Address')` and rewrites the cache
file with `to_csv` (lines 122-124).

Pandas cells are modelled as `Option String` (a `none` cell is pandas
`NaN`); `astype(str)` renders `NaN` as the text "nan", while
`fillna('')` first replaces `NaN` by the empty string.  Coordinates are
modelled as integers (no arithmetic on them is in scope, only equality
and presence).  The geopy lookup is modelled as a function
`String → GeoOutcome` where the outcome is an exception, an empty
result, or a coordinate pair.
-/

namespace Cockpit

/-- Characters stripped by pandas `str.strip()` (whitespace). -/
def lstripChars (s : List Char) : List Char := s.dropWhile Char.isWhitespace

def rstripChars (s : List Char) : List Char :=
  (s.reverse.dropWhile Char.isWhitespace).reverse

/-- pandas `str.strip()`: remove leading and trailing whitespace. -/
def pyStrip (s : String) : String := String.mk (rstripChars (lstripChars s.data))

/-- One left-to-right pass removing each occurrence of the two-character
substring ".0", exactly as Python's `str.replace('.0', '')` (which pandas
`str.replace('.0', '', regex=False)` calls per cell): after a removal the
scan continues after the removed characters and does not rescan. -/
def removeDotZeroChars : List Char → List Char
  | [] => []
  | '.' :: '0' :: rest => removeDotZeroChars rest
  | c :: rest => c :: removeDotZeroChars rest

/-- pandas `.str.replace('.0', '', regex=False)` on one cell. -/
def pyReplaceDotZero (s : String) : String := String.mk (removeDotZeroChars s.data)

/-- One input row of the SAP export: the five columns the script uses.
A `none` field is a pandas `NaN` cell. -/
structure RawRecord where
  NAME1 : Option String
  STRAS : Option String
  PSTLZ : Option String
  ORT01 : Option String
  LAND1 : Option String
deriving DecidableEq, Repr

/-- pandas `astype(str)` on a possibly-missing cell: `NaN` prints as "nan". -/
def astype_str : Option String → String
  | none => "nan"
  | some s => s

/-- pandas `fillna('').astype(str)` on a cell: `NaN` becomes the empty string. -/
def fillna_astype_str : Option String → String
  | none => ""
  | some s => s

/-- Lines 43-48 of `Cockpit.py`:
`df['Full_Address'] = STRAS.fillna('').astype(str).str.strip() + ', ' +
PSTLZ.fillna('').astype(str).str.replace('.0','',regex=False).str.strip() + ' ' +
ORT01.astype(str).str.strip() + ', ' + LAND1.astype(str).str.strip()`. -/
def Full_Address (r : RawRecord) : String :=
  pyStrip (fillna_astype_str r.STRAS) ++ ", " ++
  pyStrip (pyReplaceDotZero (fillna_astype_str r.PSTLZ)) ++ " " ++
  pyStrip (astype_str r.ORT01) ++ ", " ++
  pyStrip (astype_str r.LAND1)

/-- A row of the loaded dataframe: the record together with its
constructed `Full_Address` column. -/
structure SapRow where
  record : RawRecord
  addr : String
deriving DecidableEq, Repr

/-- Lines 41-48: `df = df.dropna(subset=['NAME1', 'ORT01'])` followed by
the `Full_Address` construction.  (Header detection and column cleaning,
lines 31-40, are input-adapter concerns outside the rows themselves.) -/
def load_sap_data (rows : List RawRecord) : List SapRow :=
  (rows.filter (fun r => r.NAME1.isSome && r.ORT01.isSome)).map
    (fun r => ⟨r, Full_Address r⟩)

/-- Line 13: `CACHE_FILE = 'geocoded_cache.csv'`. -/
def CACHE_FILE : String := "geocoded_cache.csv"

/-- One row of the durable cache CSV: columns `Full_Address, lat, lon`
(line 54).  Only successful geocodes are ever written (line 122), so both
coordinates are present. -/
structure CacheRow where
  addr : String
  lat : Int
  lon : Int
deriving DecidableEq, Repr

/-- The left join on `Full_Address` (line 86) / in-memory membership test:
first cache row whose key matches, if any. -/
def cacheLookup (cache : List CacheRow) (a : String) : Option (Int × Int) :=
  (cache.find? (fun r => decide (r.addr = a))).map (fun r => (r.lat, r.lon))

/-- Outcome of one call to the underlying geopy lookup for an address:
the call raises, returns `None` (falsy), or returns a location. -/
inductive GeoOutcome where
  | err
  | notFound
  | found (lat lon : Int)
deriving DecidableEq, Repr

/-- One row of a batch after geocoding: the address with the `new_lats` /
`new_lons` entries appended for it (lines 108-119); `none` is a Python
`None`, which pandas stores as `NaN`. -/
structure BatchRow where
  addr : String
  lat : Option Int
  lon : Option Int
deriving DecidableEq, Repr

/-- The raw `geocode(row.Full_Address)` call (line 111): may raise
(`Except.error`), return nothing, or return a location. -/
def geopy_geocode (g : String → GeoOutcome) (a : String) :
    Except String (Option (Int × Int)) :=
  match g a with
  | .err => Except.error "geocoder failure"
  | .notFound => Except.ok none
  | .found la lo => Except.ok (some (la, lo))

/-- Lines 110-116: the `try`/`except` body for one row.  `loc.latitude if
loc else None` appends `none` for an empty result, and the bare `except`
appends `none` for both coordinates on any raised error. -/
def clientResolve (g : String → GeoOutcome) (a : String) : BatchRow :=
  match geopy_geocode g a with
  | .error _ => ⟨a, none, none⟩
  | .ok none => ⟨a, none, none⟩
  | .ok (some (la, lo)) => ⟨a, some la, some lo⟩

/-- Lines 109-119: geocode every row of a batch in order. -/
def geocodeBatch (g : String → GeoOutcome) (batch : List String) : List BatchRow :=
  batch.map (clientResolve g)

/-- Line 122: `new_successes = batch.dropna(subset=['lat','lon'])
[['Full_Address','lat','lon']]` — exactly the rows with both coordinates
present. -/
def new_successes (batch : List BatchRow) : List CacheRow :=
  batch.filterMap (fun b =>
    match b.lat, b.lon with
    | some la, some lo => some ⟨b.addr, la, lo⟩
    | _, _ => none)

/-- Helper for `drop_duplicates`: keep each row whose key was not seen
before, scanning left to right. -/
def dedupFirstAux (seen : List String) : List CacheRow → List CacheRow
  | [] => []
  | r :: rs =>
    if r.addr ∈ seen then dedupFirstAux seen rs
    else r :: dedupFirstAux (r.addr :: seen) rs

/-- pandas `drop_duplicates('Full_Address')` with the default
`keep='first'`: the FIRST row for each key survives. -/
def drop_duplicates (l : List CacheRow) : List CacheRow := dedupFirstAux [] l

/-- Line 123: `updated_cache = pd.concat([cache_df, new_successes])
.drop_duplicates('Full_Address')` — old cache first, then the new rows. -/
def updated_cache (cache_df new : List CacheRow) : List CacheRow :=
  drop_duplicates (cache_df ++ new)

/-- One iteration of the batch loop as it affects the cache
(lines 105-125): geocode the batch, keep the successes, merge. -/
def batchStep (g : String → GeoOutcome) (cache : List CacheRow)
    (batch : List String) : List CacheRow :=
  updated_cache cache (new_successes (geocodeBatch g batch))

/-- The cache after running a sequence of batches (line 125 feeds each
`updated_cache` into the next iteration). -/
def runBatchesCache (g : String → GeoOutcome) (cache0 : List CacheRow)
    (batches : List (List String)) : List CacheRow :=
  batches.foldl (batchStep g) cache0

/-- The successive contents written to the cache file: line 124 runs
`updated_cache.to_csv(CACHE_FILE)` once per batch, before the next batch
starts, so the k-th flushed store is the cache after batches 1..k. -/
def flushTrace (g : String → GeoOutcome) :
    List CacheRow → List (List String) → List (List CacheRow)
  | _, [] => []
  | cache, b :: bs =>
    let c := batchStep g cache b
    c :: flushTrace g c bs

/-- Line 103: `batch_size = 10`. -/
def batch_size : Nat := 10

/-- Structural worker for `chunksOf`; `fuel` bounds the number of chunks
and is instantiated with the list length, which each step strictly
decreases, so the `fuel = 0` branch is unreachable. -/
def chunksOfAux (n : Nat) : Nat → List α → List (List α)
  | _, [] => []
  | 0, l => [l]
  | fuel + 1, x :: xs => (x :: xs.take (n - 1)) :: chunksOfAux n fuel (xs.drop (n - 1))

/-- Lines 104-105: `pending_df.iloc[i : i + batch_size]` for
`i in range(0, len(pending_df), batch_size)` — consecutive chunks. -/
def chunksOf (n : Nat) (l : List α) : List (List α) :=
  chunksOfAux n l.length l

/-- Line 93: `pending_df = full_df[full_df['lat'].isna()]` — the loaded
rows whose address has no cache hit, keeping duplicates and order. -/
def pending_df (sap : List SapRow) (cache0 : List CacheRow) : List String :=
  (sap.filter (fun s => (cacheLookup cache0 s.addr).isNone)).map SapRow.addr

/-- What one full processing pass produces, as far as the claims are
concerned. -/
structure PipelineResult where
  keys : List String
  calls : Nat
  mapped : List CacheRow
  cache : List CacheRow
deriving Repr

/-- The whole pass of lines 83-128 for a fixed deterministic lookup `g`:
load, left-join against the cache, batch the pending rows in tens,
geocode one call per batch row (line 111 runs once per `itertuples` row,
so `calls` counts every row of every batch), accumulate `new_successes`
into the displayed set (line 128) and fold the cache updates. -/
def run_pipeline (g : String → GeoOutcome) (rows : List RawRecord)
    (cache0 : List CacheRow) : PipelineResult :=
  let sap := load_sap_data rows
  let pend := pending_df sap cache0
  let batches := chunksOf batch_size pend
  let initMapped := sap.filterMap (fun s =>
    (cacheLookup cache0 s.addr).map (fun p => CacheRow.mk s.addr p.1 p.2))
  { keys := sap.map SapRow.addr
  , calls := (batches.map List.length).sum
  , mapped := batches.foldl
      (fun acc b => acc ++ new_successes (geocodeBatch g b)) initMapped
  , cache := runBatchesCache g cache0 batches }

/-- A tiny file-system state: an association of path to the rows stored
in that file (most recent binding first). -/
structure FileSys where
  files : List (String × List CacheRow)
deriving DecidableEq, Repr

def getFile (fs : FileSys) (p : String) : Option (List CacheRow) :=
  (fs.files.find? (fun e => decide (e.1 = p))).map Prod.snd

def setFile (fs : FileSys) (p : String) (c : List CacheRow) : FileSys :=
  ⟨(p, c) :: fs.files⟩

/-- File operations a flush could perform. -/
inductive FsOp where
  | writeFile (path : String) (content : List CacheRow)
  | rename (src dst : String)
deriving DecidableEq, Repr

/-- Running an operation to completion. -/
def applyOp (fs : FileSys) : FsOp → FileSys
  | .writeFile p c => setFile fs p c
  | .rename src dst =>
    match getFile fs src with
    | some c => setFile fs dst c
    | none => fs

/-- Interrupting an operation midway: an in-place file write truncates the
file and has emitted only a prefix of `j` rows when the process dies; a
rename is atomic, so an interrupted rename has not happened. -/
def interruptOp (fs : FileSys) : FsOp → Nat → FileSys
  | .writeFile p c, j => setFile fs p (c.take j)
  | .rename _ _, _ => fs

/-- Run the first `k` operations to completion, then die `j` rows into
operation `k` (if there is one). -/
def runInterrupted (fs : FileSys) : List FsOp → Nat → Nat → FileSys
  | [], _, _ => fs
  | op :: _, 0, j => interruptOp fs op j
  | op :: ops, k + 1, j => runInterrupted (applyOp fs op) ops k j

/-- Line 124: `updated_cache.to_csv(CACHE_FILE, index=False)` — a single
direct write over the cache file, no temporary file and no rename. -/
def flushOps (data : List CacheRow) : List FsOp :=
  [FsOp.writeFile CACHE_FILE data]

/-- The coordinates the lookup `g` yields for `a`, if it succeeds. -/
def foundLookup (g : String → GeoOutcome) (a : String) : Option (Int × Int) :=
  match g a with
  | .found la lo => some (la, lo)
  | _ => none

/-- Record 1 of the end-to-end scenario of spec section 8. -/
def rec1 : RawRecord :=
  ⟨some "Acme", some "Main St", some "10001", some "New York", some "US"⟩

/-- Record 2 of the end-to-end scenario: missing street and postal code
(here: empty, as the scenario writes them). -/
def rec2 : RawRecord := ⟨some "Acme2", some "", some "", some "Paris", some "FR"⟩

/-- Record 3 of the end-to-end scenario: same address fields as record 1. -/
def rec3 : RawRecord :=
  ⟨some "Acme3", some "Main St", some "10001", some "New York", some "US"⟩

/-- A deterministic lookup stub that resolves every address. -/
def gStub : String → GeoOutcome := fun a => GeoOutcome.found (Int.ofNat a.length) 7

/-- A lookup stub whose underlying call always raises. -/
def gFail : String → GeoOutcome := fun _ => GeoOutcome.err

/-- A lookup stub whose underlying call always returns nothing. -/
def gNone : String → GeoOutcome := fun _ => GeoOutcome.notFound

/-- A record whose `LAND1` (country) cell is missing. -/
def recNoCountry : RawRecord :=
  ⟨some "Acme", some "Main St", some "10001", some "New York", none⟩

/-- The same record with an empty-text country instead. -/
def recEmptyCountry : RawRecord :=
  ⟨some "Acme", some "Main St", some "10001", some "New York", some ""⟩

/-- A record whose postal cell has ".0" in the middle, not at the end. -/
def recPostalMid : RawRecord :=
  ⟨some "Acme", some "Main St", some "80.0331", some "Munich", some "DE"⟩

/-- The same record with the plain postal code. -/
def recPostalPlain : RawRecord :=
  ⟨some "Acme", some "Main St", some "80331", some "Munich", some "DE"⟩

/-- A record whose `NAME1` cell is missing but whose address fields are
fully populated. -/
def recNoName : RawRecord :=
  ⟨none, some "Main St", some "10001", some "New York", some "US"⟩

/-- Durable-store contents before a flush, for the interruption scenario. -/
def storeOld : List CacheRow := [⟨"a", 1, 1⟩]

/-- Durable-store contents a flush is asked to write. -/
def storeNew : List CacheRow := [⟨"b", 2, 2⟩, ⟨"c", 3, 3⟩]

/-! ### Helper lemmas about the cache operations -/

theorem cacheLookup_nil (a : String) : cacheLookup [] a = none := rfl

theorem cacheLookup_cons (r : CacheRow) (rs : List CacheRow) (a : String) :
    cacheLookup (r :: rs) a =
      if r.addr = a then some (r.lat, r.lon) else cacheLookup rs a := by
  by_cases h : r.addr = a <;> simp [cacheLookup, List.find?, h]

theorem cacheLookup_append_some {l1 : List CacheRow} {a : String}
    {v : Int × Int} (l2 : List CacheRow) (h : cacheLookup l1 a = some v) :
    cacheLookup (l1 ++ l2) a = some v := by
  induction l1 with
  | nil => simp [cacheLookup] at h
  | cons r rs ih =>
    rw [List.cons_append, cacheLookup_cons]
    rw [cacheLookup_cons] at h
    by_cases hr : r.addr = a
    · simpa [hr] using h
    · rw [if_neg hr] at h ⊢; exact ih h

theorem cacheLookup_append_none {l1 : List CacheRow} {a : String}
    (l2 : List CacheRow) (h : cacheLookup l1 a = none) :
    cacheLookup (l1 ++ l2) a = cacheLookup l2 a := by
  induction l1 with
  | nil => rfl
  | cons r rs ih =>
    rw [List.cons_append, cacheLookup_cons]
    rw [cacheLookup_cons] at h
    by_cases hr : r.addr = a
    · simp [hr] at h
    · rw [if_neg hr] at h ⊢; exact ih h

theorem cacheLookup_dedupFirstAux (seen : List String) (l : List CacheRow) (a : String) :
    cacheLookup (dedupFirstAux seen l) a =
      if a ∈ seen then none else cacheLookup l a := by
  induction l generalizing seen with
  | nil => simp [dedupFirstAux, cacheLookup]
  | cons r rs ih =>
    by_cases hr : r.addr ∈ seen
    · rw [dedupFirstAux, if_pos hr, ih]
      by_cases ha : a ∈ seen
      · simp [ha]
      · have hne : r.addr ≠ a := fun he => ha (he ▸ hr)
        simp [ha, cacheLookup_cons, hne]
    · rw [dedupFirstAux, if_neg hr, cacheLookup_cons]
      by_cases hra : r.addr = a
      · have ha : a ∉ seen := fun hs => hr (hra ▸ hs)
        simp [hra, ha, cacheLookup_cons]
      · rw [if_neg hra, ih]
        by_cases ha : a ∈ seen
        · simp [ha, hra]
        · simp [ha, hra, cacheLookup_cons, Ne.symm hra]

theorem cacheLookup_drop_duplicates (l : List CacheRow) (a : String) :
    cacheLookup (drop_duplicates l) a = cacheLookup l a := by
  simpa using cacheLookup_dedupFirstAux [] l a

theorem mem_load_sap_data {rows : List RawRecord} {s : SapRow} :
    s ∈ load_sap_data rows ↔
      s.record ∈ rows ∧ s.record.NAME1.isSome ∧ s.record.ORT01.isSome ∧
        s.addr = Full_Address s.record := by
  cases s with
  | mk r a =>
    simp only [load_sap_data, List.mem_map, List.mem_filter, Bool.and_eq_true]
    constructor
    · rintro ⟨r2, ⟨hmem, h1, h2⟩, heq⟩
      cases heq
      exact ⟨hmem, h1, h2, rfl⟩
    · rintro ⟨hmem, h1, h2, rfl⟩
      exact ⟨r, ⟨hmem, h1, h2⟩, rfl⟩

theorem cacheLookup_new_successes (g : String → GeoOutcome) (b : List String) (a : String) :
    cacheLookup (new_successes (geocodeBatch g b)) a =
      if a ∈ b then foundLookup g a else none := by
  induction b with
  | nil => simp [geocodeBatch, new_successes, cacheLookup]
  | cons x xs ih =>
    cases hx : g x with
    | found la lo =>
      by_cases hxa : x = a
      · subst hxa
        simp [geocodeBatch, new_successes, clientResolve, geopy_geocode, hx,
              cacheLookup_cons, foundLookup]
      · simp only [geocodeBatch, List.map_cons, new_successes, List.filterMap_cons,
                   clientResolve, geopy_geocode, hx]
        rw [show (List.filterMap _ (List.map (clientResolve g) xs) : List CacheRow)
              = new_successes (geocodeBatch g xs) from rfl]
        simp [cacheLookup_cons, hxa, ih, List.mem_cons, Ne.symm hxa]
    | err =>
      simp only [geocodeBatch, List.map_cons, new_successes, List.filterMap_cons,
                 clientResolve, geopy_geocode, hx]
      by_cases hxa : x = a
      · subst hxa
        simp only [List.mem_cons, true_or, if_pos]
        rw [show (List.filterMap _ (List.map (clientResolve g) xs) : List CacheRow)
              = new_successes (geocodeBatch g xs) from rfl]
        rw [ih]
        by_cases hax : x ∈ xs <;> simp [hax, foundLookup, hx]
      · rw [show (List.filterMap _ (List.map (clientResolve g) xs) : List CacheRow)
              = new_successes (geocodeBatch g xs) from rfl]
        simp [ih, List.mem_cons, Ne.symm hxa]
    | notFound =>
      simp only [geocodeBatch, List.map_cons, new_successes, List.filterMap_cons,
                 clientResolve, geopy_geocode, hx]
      by_cases hxa : x = a
      · subst hxa
        simp only [List.mem_cons, true_or, if_pos]
        rw [show (List.filterMap _ (List.map (clientResolve g) xs) : List CacheRow)
              = new_successes (geocodeBatch g xs) from rfl]
        rw [ih]
        by_cases hax : x ∈ xs <;> simp [hax, foundLookup, hx]
      · rw [show (List.filterMap _ (List.map (clientResolve g) xs) : List CacheRow)
              = new_successes (geocodeBatch g xs) from rfl]
        simp [ih, List.mem_cons, Ne.symm hxa]

theorem cacheLookup_batchStep (g : String → GeoOutcome) (c : List CacheRow)
    (b : List String) (a : String) :
    cacheLookup (batchStep g c b) a =
      match cacheLookup c a with
      | some v => some v
      | none => if a ∈ b then foundLookup g a else none := by
  cases h : cacheLookup c a with
  | some v =>
    simp only [batchStep, updated_cache, cacheLookup_drop_duplicates]
    rw [cacheLookup_append_some _ h]
  | none =>
    simp only [batchStep, updated_cache, cacheLookup_drop_duplicates]
    rw [cacheLookup_append_none _ h, cacheLookup_new_successes]

theorem cacheLookup_runBatchesCache (g : String → GeoOutcome)
    (bs : List (List String)) (c : List CacheRow) (a : String) (la lo : Int) :
    cacheLookup (runBatchesCache g c bs) a = some (la, lo) ↔
      (cacheLookup c a = some (la, lo) ∨
        (cacheLookup c a = none ∧ g a = GeoOutcome.found la lo ∧ a ∈ bs.flatten)) := by
  induction bs generalizing c with
  | nil => simp [runBatchesCache]
  | cons b rest ih =>
    have hstep := cacheLookup_batchStep g c b a
    rw [show runBatchesCache g c (b :: rest) = runBatchesCache g (batchStep g c b) rest
          from rfl, ih]
    cases h : cacheLookup c a with
    | some v =>
      rw [h] at hstep
      simp [hstep, h]
    | none =>
      rw [h] at hstep
      by_cases hab : a ∈ b
      · cases hg : g a with
        | found la2 lo2 =>
          rw [if_pos hab] at hstep
          simp only [foundLookup, hg] at hstep
          simp [hstep, hg, hab]
        | err =>
          rw [if_pos hab] at hstep
          simp only [foundLookup, hg] at hstep
          simp [hstep, hg]
        | notFound =>
          rw [if_pos hab] at hstep
          simp only [foundLookup, hg] at hstep
          simp [hstep, hg]
      · rw [if_neg hab] at hstep
        simp [hstep, hab]

theorem flushTrace_eq (g : String → GeoOutcome) (bs : List (List String))
    (c : List CacheRow) :
    flushTrace g c bs =
      (List.range bs.length).map
        (fun j => runBatchesCache g c (bs.take (j + 1))) := by
  induction bs generalizing c with
  | nil => simp [flushTrace]
  | cons b rest ih =>
    rw [flushTrace, ih]
    simp only [List.length_cons, List.range_succ_eq_map, List.map_cons, List.map_map]
    congr 1
  

/-! ### The claims -/

/-- Claim C1, counterexample: merging a second cache entry for an already
cached address with different coordinates does NOT leave the second
entry's coordinates in the cache — `drop_duplicates('Full_Address')` with
its default `keep='first'` keeps the first (earlier) entry, so the
claimed last-write-wins property fails on this concrete pair. -/
theorem C1_counterexample :
    cacheLookup (updated_cache [⟨"a", 1, 1⟩] [⟨"a", 2, 2⟩]) "a" ≠ some (2, 2) ∧
    cacheLookup (updated_cache [⟨"a", 1, 1⟩] [⟨"a", 2, 2⟩]) "a" = some (1, 1) := by
  decide

/-- Claim C1, amended: merging cache entries de-duplicates by canonical
address with FIRST-write-wins — an address already present keeps its
existing coordinates no matter what is merged later, and an address not
yet present takes whatever the first matching merged row holds. -/
theorem C1_merge_first_write_wins (cache new : List CacheRow) (a : String) :
    (∀ la lo : Int, cacheLookup cache a = some (la, lo) →
      cacheLookup (updated_cache cache new) a = some (la, lo)) ∧
    (cacheLookup cache a = none →
      cacheLookup (updated_cache cache new) a = cacheLookup new a) := by
  constructor
  · intro la lo h
    rw [updated_cache, cacheLookup_drop_duplicates, cacheLookup_append_some _ h]
  · intro h
    rw [updated_cache, cacheLookup_drop_duplicates, cacheLookup_append_none _ h]

/-- Claim C1, witness: the amended theorem applied to a one-entry cache
and a one-entry merge for a fresh address. -/
theorem C1_witness :
    cacheLookup (updated_cache [⟨"a", 1, 1⟩] [⟨"b", 5, 6⟩]) "a" = some (1, 1) ∧
    cacheLookup (updated_cache [⟨"a", 1, 1⟩] [⟨"b", 5, 6⟩]) "b" = some (5, 6) := by
  refine ⟨(C1_merge_first_write_wins _ _ _).1 1 1 (by decide), ?_⟩
  rw [(C1_merge_first_write_wins [⟨"a", 1, 1⟩] [⟨"b", 5, 6⟩] "b").2 (by decide)]
  decide

/-- Claim C2, counterexample: on the three-record scenario the pipeline
does produce 2 distinct `Full_Address` keys, but it issues 3 lookup
calls, not 2 — duplicate addresses are NOT collapsed before geocoding
(the loop on line 109 geocodes every pending row). -/
theorem C2_counterexample :
    (run_pipeline gStub [rec1, rec2, rec3] []).keys.dedup.length = 2 ∧
    (run_pipeline gStub [rec1, rec2, rec3] []).calls ≠ 2 ∧
    (run_pipeline gStub [rec1, rec2, rec3] []).calls = 3 := by
  decide

/-- Claim C2, amended: the three-record scenario yields 2 distinct
`Full_Address` keys, issues exactly 3 lookup calls (one per pending row,
so records 1 and 3 are each geocoded), and produces a resolved set
covering all 3 records in which records 1 and 3 share coordinates. -/
theorem C2_end_to_end_scenario :
    (run_pipeline gStub [rec1, rec2, rec3] []).keys.dedup.length = 2 ∧
    (run_pipeline gStub [rec1, rec2, rec3] []).calls = 3 ∧
    (run_pipeline gStub [rec1, rec2, rec3] []).mapped =
      [⟨"Main St, 10001 New York, US", 27, 7⟩, ⟨",  Paris, FR", 12, 7⟩,
       ⟨"Main St, 10001 New York, US", 27, 7⟩] ∧
    (run_pipeline gStub [rec1, rec2, rec3] []).mapped.get? 0 =
      (run_pipeline gStub [rec1, rec2, rec3] []).mapped.get? 2 := by
  decide

/-- Claim C3: the durable store only ever contains resolved entries —
`new_successes` keeps exactly the batch rows with both coordinates
present, and an address the lookup never resolves is absent from every
flushed store and from the final cache of the run (given it was not in
the prior-run store). -/
theorem C3_store_resolved_only (g : String → GeoOutcome) (cache0 : List CacheRow)
    (batches : List (List String)) (a : String)
    (hg : ∀ la lo : Int, g a ≠ GeoOutcome.found la lo)
    (hc : cacheLookup cache0 a = none) :
    (∀ batch (r : CacheRow), r ∈ new_successes batch ↔
      ∃ b ∈ batch, b.addr = r.addr ∧ b.lat = some r.lat ∧ b.lon = some r.lon) ∧
    (∀ store ∈ flushTrace g cache0 batches, cacheLookup store a = none) ∧
    cacheLookup (runBatchesCache g cache0 batches) a = none := by
  have hmain : ∀ bs : List (List String),
      cacheLookup (runBatchesCache g cache0 bs) a = none := by
    intro bs
    cases h : cacheLookup (runBatchesCache g cache0 bs) a with
    | none => rfl
    | some v =>
      obtain ⟨la, lo⟩ := v
      rcases (cacheLookup_runBatchesCache g bs cache0 a la lo).mp h with h1 | h1
      · rw [hc] at h1; cases h1
      · exact absurd h1.2.1 (hg la lo)
  refine ⟨?_, ?_, hmain batches⟩
  · intro batch r
    simp only [new_successes, List.mem_filterMap]
    constructor
    · rintro ⟨b, hb, heq⟩
      refine ⟨b, hb, ?_⟩
      cases hla : b.lat with
      | none => rw [hla] at heq; cases hlo : b.lon <;> rw [hlo] at heq <;> simp at heq
      | some la =>
        cases hlo : b.lon with
        | none => simp [hla, hlo] at heq
        | some lo =>
          rw [hla, hlo] at heq
          cases heq
          exact ⟨rfl, rfl, rfl⟩
    · rintro ⟨b, hb, haddr, hla, hlo⟩
      refine ⟨b, hb, ?_⟩
      rw [hla, hlo, haddr]
  · intro store hst
    rw [flushTrace_eq] at hst
    simp only [List.mem_map, List.mem_range] at hst
    obtain ⟨j, _, rfl⟩ := hst
    exact hmain _

/-- Claim C3, witness: a run over one single-address batch whose lookup
always returns empty, starting from an empty store. -/
theorem C3_witness :
    (∀ batch (r : CacheRow), r ∈ new_successes batch ↔
      ∃ b ∈ batch, b.addr = r.addr ∧ b.lat = some r.lat ∧ b.lon = some r.lon) ∧
    (∀ store ∈ flushTrace gNone [] [["x"]], cacheLookup store "x" = none) ∧
    cacheLookup (runBatchesCache gNone [] [["x"]]) "x" = none :=
  C3_store_resolved_only gNone [] [["x"]] "x" (fun _ _ h => nomatch h) rfl

/-- Claim C4, counterexample: the flush of line 124 is a single in-place
write of the cache file, so dying one row into it leaves the store
holding neither the old nor the new contents — the write-temp-then-rename
atomicity the claim states fails on this concrete interruption. -/
theorem C4_counterexample :
    getFile (runInterrupted (setFile ⟨[]⟩ CACHE_FILE storeOld) (flushOps storeNew) 0 1)
        CACHE_FILE ≠ some storeOld ∧
    getFile (runInterrupted (setFile ⟨[]⟩ CACHE_FILE storeOld) (flushOps storeNew) 0 1)
        CACHE_FILE ≠ some storeNew ∧
    getFile (runInterrupted (setFile ⟨[]⟩ CACHE_FILE storeOld) (flushOps storeNew) 0 1)
        CACHE_FILE = some [⟨"b", 2, 2⟩] := by
  decide

/-- Claim C4, amended: the flush is exactly one direct `writeFile` of the
cache path (no temporary file, no rename), and an interruption `j` rows
into it leaves the store holding the first `j` rows of the new contents —
the old contents are not preserved. -/
theorem C4_flush_overwrites_in_place (fs : FileSys) (data : List CacheRow) (j : Nat) :
    flushOps data = [FsOp.writeFile CACHE_FILE data] ∧
    getFile (runInterrupted fs (flushOps data) 0 j) CACHE_FILE =
      some (List.take j data) := by
  refine ⟨rfl, ?_⟩
  simp [flushOps, runInterrupted, interruptOp, getFile, setFile]

/-- Claim C5: the cache file is rewritten once per batch before the next
batch starts — the k-th flush holds exactly the cache after batches
1..k — and the store after the first k batches holds an address with
given coordinates exactly when the prior store already held them, or the
address was absent from the prior store, occurs in batches 1..k and the
lookup resolves it to those coordinates; an interruption after batch k
therefore loses at most the later batches' work. -/
theorem C5_partial_batch_durability (g : String → GeoOutcome)
    (cache0 : List CacheRow) (batches : List (List String)) :
    flushTrace g cache0 batches =
      (List.range batches.length).map
        (fun j => runBatchesCache g cache0 (batches.take (j + 1))) ∧
    ∀ (k : Nat) (a : String) (la lo : Int),
      cacheLookup (runBatchesCache g cache0 (batches.take k)) a = some (la, lo) ↔
        (cacheLookup cache0 a = some (la, lo) ∨
          (cacheLookup cache0 a = none ∧ g a = GeoOutcome.found la lo ∧
            a ∈ (batches.take k).flatten)) := by
  exact ⟨flushTrace_eq g batches cache0,
    fun k a la lo => cacheLookup_runBatchesCache g (batches.take k) cache0 a la lo⟩

/-- Claim C6: when the underlying lookup raises or returns an empty
result for an address, the per-row handler returns the no-coordinates row
for it instead of propagating the error, that row is in the processed
batch, and the batch is processed in full (one output row per input
row) — a lookup failure never aborts the batch. -/
theorem C6_lookup_failure_contained (g : String → GeoOutcome) (b : List String)
    (a : String) (ha : a ∈ b)
    (hfail : g a = GeoOutcome.err ∨ g a = GeoOutcome.notFound) :
    clientResolve g a = ⟨a, none, none⟩ ∧
    BatchRow.mk a none none ∈ geocodeBatch g b ∧
    (geocodeBatch g b).length = b.length := by
  have h1 : clientResolve g a = ⟨a, none, none⟩ := by
    rcases hfail with h | h <;> simp [clientResolve, geopy_geocode, h]
  exact ⟨h1, List.mem_map.mpr ⟨a, ha, h1⟩, List.length_map _ _⟩

/-- Claim C6, witness: a two-address batch against a lookup that always
raises. -/
theorem C6_witness :
    clientResolve gFail "x" = ⟨"x", none, none⟩ ∧
    BatchRow.mk "x" none none ∈ geocodeBatch gFail ["x", "y"] ∧
    (geocodeBatch gFail ["x", "y"]).length = 2 := by
  have h := C6_lookup_failure_contained gFail ["x", "y"] "x" (by decide) (Or.inl rfl)
  exact ⟨h.1, h.2.1, h.2.2⟩

/-- Claim C7, counterexample: a record with a missing country cell does
NOT get the empty string — `LAND1.astype(str)` renders the missing cell
as the text "nan", so its `Full_Address` differs from the one built with
an empty country. -/
theorem C7_counterexample :
    Full_Address recNoCountry = "Main St, 10001 New York, nan" ∧
    Full_Address recNoCountry ≠ Full_Address recEmptyCountry ∧
    Full_Address recEmptyCountry = "Main St, 10001 New York, " := by
  decide

/-- Claim C7, amended: a missing street or postal cell defaults to the
empty string (those columns get `fillna('')`), but a missing country cell
is rendered as the placeholder text "nan", and a record with a missing
city cell is dropped during loading before any address is built. -/
theorem C7_missing_field_defaults (r : RawRecord) (rows : List RawRecord) :
    Full_Address { r with STRAS := none } = Full_Address { r with STRAS := some "" } ∧
    Full_Address { r with PSTLZ := none } = Full_Address { r with PSTLZ := some "" } ∧
    Full_Address { r with LAND1 := none } =
      Full_Address { r with LAND1 := some "nan" } ∧
    (r.ORT01 = none → ∀ s ∈ load_sap_data rows, s.record ≠ r) := by
  refine ⟨rfl, rfl, rfl, ?_⟩
  intro hcity s hs heq
  have := (mem_load_sap_data.mp hs).2.2.1
  rw [heq, hcity] at this
  cases this

/-- Claim C7, witness: the amended theorem at a concrete record and a
concrete one-record input. -/
theorem C7_witness :
    (Full_Address { recNoName with STRAS := none } =
      Full_Address { recNoName with STRAS := some "" }) ∧
    (Full_Address { recNoName with PSTLZ := none } =
      Full_Address { recNoName with PSTLZ := some "" }) ∧
    (Full_Address { recNoName with LAND1 := none } =
      Full_Address { recNoName with LAND1 := some "nan" }) ∧
    (recNoName.ORT01 = none → ∀ s ∈ load_sap_data [rec1], s.record ≠ recNoName) :=
  C7_missing_field_defaults recNoName [rec1]

/-- Claim C8, counterexample: the postal stripping is NOT restricted to a
trailing fractional artifact — `str.replace('.0', '', regex=False)`
removes the substring ".0" anywhere, so "80.0331" (which has no trailing
artifact) normalizes identically to "80331". -/
theorem C8_counterexample :
    Full_Address recPostalMid = Full_Address recPostalPlain ∧
    Full_Address recPostalMid = "Main St, 80331 Munich, DE" := by
  decide

/-- Claim C8, amended: before trimming, every left-to-right occurrence of
the substring ".0" is removed from the postal component — in particular a
postal code ingested as "80331.0" normalizes identically to "80331", but
so does a non-trailing occurrence such as "80.0331". -/
theorem C8_postal_dotzero_stripping (r : RawRecord) (t : String) :
    Full_Address { r with PSTLZ := some "80331.0" } =
      Full_Address { r with PSTLZ := some "80331" } ∧
    pyReplaceDotZero (String.mk ('.' :: '0' :: t.data)) = pyReplaceDotZero t ∧
    Full_Address { r with PSTLZ := some "80.0331" } =
      Full_Address { r with PSTLZ := some "80331" } := by
  refine ⟨?_, ?_, ?_⟩
  · have h : pyStrip (pyReplaceDotZero "80331.0") = pyStrip (pyReplaceDotZero "80331") := by
      decide
    simp [Full_Address, fillna_astype_str, h]
  · simp [pyReplaceDotZero, removeDotZeroChars]
  · have h : pyStrip (pyReplaceDotZero "80.0331") = pyStrip (pyReplaceDotZero "80331") := by
      decide
    simp [Full_Address, fillna_astype_str, h]

/-- Claim C9: normalization is a pure deterministic function of the four
address components — two records whose street, postal, city and country
cells coerce to the same text get the same `Full_Address`, whatever their
other fields hold. -/
theorem C9_normalize_deterministic (x y : RawRecord)
    (hs : fillna_astype_str x.STRAS = fillna_astype_str y.STRAS)
    (hp : fillna_astype_str x.PSTLZ = fillna_astype_str y.PSTLZ)
    (hc : astype_str x.ORT01 = astype_str y.ORT01)
    (hl : astype_str x.LAND1 = astype_str y.LAND1) :
    Full_Address x = Full_Address y := by
  simp [Full_Address, hs, hp, hc, hl]

/-- Claim C9, witness: two records with different names, one with a
missing street cell and the other with an empty street cell — identical
after coercion to text — normalize identically. -/
theorem C9_witness :
    Full_Address ⟨some "Acme", none, some "80331", some "Munich", some "DE"⟩ =
      Full_Address ⟨some "Other", some "", some "80331", some "Munich", some "DE"⟩ :=
  C9_normalize_deterministic _ _ rfl rfl rfl rfl

/-- Claim C10: a row with a missing name or city cell is dropped by
`dropna(subset=['NAME1','ORT01'])` during loading — it never appears in
the loaded set, every surviving row has both cells, and everything
downstream (the keys, the pending addresses that get geocoded) is drawn
only from the loaded rows. -/
theorem C10_missing_name_or_city_dropped (rows : List RawRecord) (r : RawRecord)
    (hr : r.NAME1 = none ∨ r.ORT01 = none) :
    (∀ s ∈ load_sap_data rows, s.record ≠ r) ∧
    (∀ s ∈ load_sap_data rows, s.record.NAME1.isSome ∧ s.record.ORT01.isSome) ∧
    (∀ (g : String → GeoOutcome) (cache0 : List CacheRow),
      (run_pipeline g rows cache0).keys = (load_sap_data rows).map SapRow.addr ∧
      ∀ a ∈ pending_df (load_sap_data rows) cache0,
        a ∈ (load_sap_data rows).map SapRow.addr) := by
  refine ⟨?_, ?_, ?_⟩
  · intro s hs heq
    have h := mem_load_sap_data.mp hs
    rcases hr with h0 | h0 <;> rw [heq, h0] at h <;> simp at h
  · intro s hs
    have h := mem_load_sap_data.mp hs
    exact ⟨h.2.1, h.2.2.1⟩
  · intro g cache0
    refine ⟨rfl, ?_⟩
    intro a ha
    simp only [pending_df, List.mem_map, List.mem_filter] at ha
    obtain ⟨s, ⟨hs, _⟩, rfl⟩ := ha
    exact List.mem_map.mpr ⟨s, hs, rfl⟩

/-- Claim C10, witness: an input holding a name-less record with fully
populated address fields next to a complete record. -/
theorem C10_witness :
    (∀ s ∈ load_sap_data [recNoName, rec1], s.record ≠ recNoName) ∧
    (∀ s ∈ load_sap_data [recNoName, rec1],
      s.record.NAME1.isSome ∧ s.record.ORT01.isSome) ∧
    (∀ (g : String → GeoOutcome) (cache0 : List CacheRow),
      (run_pipeline g [recNoName, rec1] cache0).keys =
        (load_sap_data [recNoName, rec1]).map SapRow.addr ∧
      ∀ a ∈ pending_df (load_sap_data [recNoName, rec1]) cache0,
        a ∈ (load_sap_data [recNoName, rec1]).map SapRow.addr) :=
  C10_missing_name_or_city_dropped [recNoName, rec1] recNoName (Or.inl rfl)

end Cockpit
